import Mathlib

/-!
Shallow embedding of `generate_qrcode.py` (eindiran/qrcode-generator):
the configuration-and-validation pipeline that turns user-facing
parameters (error-tolerance percentage, symbol version, border/box
sizing, renderer backend name, colors) into an encoder configuration,
plus the renderer selection and output-writing logic.  Machine-level
values are modelled as `Int`/`Nat`; Python exceptions become `Except`;
interactions with the external QR-encoding collaborator are recorded as
an explicit event trace; stderr advisories become structured values.
-/

namespace QrGen

/-- Source constant `BORDER_PX_MINIMUM = 4`. -/
def BORDER_PX_MINIMUM : Int := 4

/-- Source constant `BORDER_PX_DEFAULT = 5`. -/
def BORDER_PX_DEFAULT : Int := 5

/-- Source constant `BOX_SIZE_PX_DEFAULT = 10`. -/
def BOX_SIZE_PX_DEFAULT : Int := 10

/-- Source constant `VERSION_MAXIMUM = 40`. -/
def VERSION_MAXIMUM : Int := 40

/-- Source `class ErrorCorrectionEnum(IntEnum)` with members
`ERROR_CORRECT_M = 0`, `ERROR_CORRECT_L = 1`, `ERROR_CORRECT_H = 2`,
`ERROR_CORRECT_Q = 3`. -/
inductive ErrorCorrectionEnum where
  | ERROR_CORRECT_M
  | ERROR_CORRECT_L
  | ERROR_CORRECT_H
  | ERROR_CORRECT_Q
deriving DecidableEq, Repr

/-- The underlying integer of each `IntEnum` member, exactly the values
assigned in the source (`M = 0`, `L = 1`, `H = 2`, `Q = 3`). -/
def ErrorCorrectionEnum.toInt : ErrorCorrectionEnum → Int
  | .ERROR_CORRECT_M => 0
  | .ERROR_CORRECT_L => 1
  | .ERROR_CORRECT_H => 2
  | .ERROR_CORRECT_Q => 3

/-- Python `ErrorCorrectionEnum(value)`: looks up the member with the
given integer value, `none` when no member has that value (Python raises
`ValueError`, caught by the coercion code in `generate_qrcode`). -/
def ErrorCorrectionEnum.ofInt (n : Int) : Option ErrorCorrectionEnum :=
  if n = 0 then some .ERROR_CORRECT_M
  else if n = 1 then some .ERROR_CORRECT_L
  else if n = 2 then some .ERROR_CORRECT_H
  else if n = 3 then some .ERROR_CORRECT_Q
  else none

/-- `IntEnum` members compare by their underlying integer value; this is
the ordering Python uses for `<` on `ErrorCorrectionEnum` members and for
`max(ErrorCorrectionEnum)`. -/
def ErrorCorrectionEnum.lt (a b : ErrorCorrectionEnum) : Bool :=
  a.toInt < b.toInt

/-- Python `max(ErrorCorrectionEnum)`: the member with the largest
underlying value. -/
def ErrorCorrectionEnum.maxMember : ErrorCorrectionEnum :=
  .ERROR_CORRECT_Q

/-- Source type alias `ErrorCorrectionT = int | ErrorCorrectionEnum`:
the `error_correction` argument of `generate_qrcode` is either an enum
member or a plain integer. -/
inductive ErrorCorrectionT where
  | enum : ErrorCorrectionEnum → ErrorCorrectionT
  | int : Int → ErrorCorrectionT
deriving DecidableEq, Repr

/-- The `ValueError`s raised by the validation pipeline, each carrying
the data interpolated into the corresponding message in the source. -/
inductive QErr where
  | invalidBorder (border : Int)
  | invalidVersion (version : Int)
  | invalidErrorCorrection (value : Int)
  | invalidErrorPercent (percent : Int)
  | encodingCapacityExceeded
deriving DecidableEq, Repr

/-- The message text of the version `ValueError` raised at source lines
81-83 (note it claims the range reaches 40 inclusive). -/
def QErr.versionMessage (v : Int) : String :=
  "Invalid version " ++ toString v ++ " - must be in range 1 -> 40"

/-- The message text of the error-correction `ValueError` raised at
source lines 88-91; `int(max(ErrorCorrectionEnum))` renders as `3`. -/
def QErr.errorCorrectionMessage (value : Int) : String :=
  "Invalid error correction value " ++ toString value ++
    " - must be in range 0 -> 3"

/-- One interaction with the external QR-encoding collaborator, in the
order `generate_qrcode` performs them: constructing `qr.QRCode(...)`,
`add_data(data)`, `make(fit=...)`. -/
inductive CollabEvent where
  | newQRCode (version : Option Int) (error_correction box_size border : Int)
  | addData (data : String)
  | make (fit : Bool)
deriving DecidableEq, Repr

/-- The encoder configuration `generate_qrcode` hands to the collaborator
together with the payload and the chosen fit flag. -/
structure QRCodeState where
  version : Option Int
  error_correction : Int
  box_size : Int
  border : Int
  data : String
  fit : Bool
deriving DecidableEq, Repr

/-- Source lines 76-83, the version block of `generate_qrcode`:
`if version:` uses Python truthiness, so `None` and `0` both skip the
check; otherwise the assertion tests membership in the set built from
`range(1, VERSION_MAXIMUM)`, i.e. `{1, ..., 39}`, and failure raises the
version `ValueError`. -/
def checkVersion : Option Int → Except QErr Unit
  | none => .ok ()
  | some v =>
    if v = 0 then .ok ()
    else if 1 ≤ v ∧ v < VERSION_MAXIMUM then .ok ()
    else .error (.invalidVersion v)

/-- Source lines 84-91, the error-correction block of `generate_qrcode`:
an enum member is kept; a plain integer is coerced with
`ErrorCorrectionEnum(value)`, whose `ValueError` is re-raised with the
message naming the value and the range `0 -> 3`. -/
def coerceErrorCorrection : ErrorCorrectionT → Except QErr ErrorCorrectionEnum
  | .enum e => .ok e
  | .int n =>
    match ErrorCorrectionEnum.ofInt n with
    | some e => .ok e
    | none => .error (.invalidErrorCorrection n)

/-- Source `generate_qrcode(data, error_correction, box_size, border,
version)` up to and including the collaborator calls it issues.  Returns
the trace of collaborator interactions performed together with either
the raised `ValueError` or the configured state.  The border check comes
first, before any collaborator interaction, and `fit` is `True` exactly
when `version is None`. -/
def generate_qrcode (data : String) (error_correction : ErrorCorrectionT)
    (box_size border : Int) (version : Option Int) :
    List CollabEvent × Except QErr QRCodeState :=
  if border < BORDER_PX_MINIMUM then
    ([], .error (.invalidBorder border))
  else
    match checkVersion version with
    | .error e => ([], .error e)
    | .ok () =>
      match coerceErrorCorrection error_correction with
      | .error e => ([], .error e)
      | .ok ec =>
        ([CollabEvent.newQRCode version ec.toInt box_size border,
          CollabEvent.addData data,
          CollabEvent.make version.isNone],
         .ok ⟨version, ec.toInt, box_size, border, data, version.isNone⟩)

/-- Modelled from the spec: the external QR-encoding collaborator is not
part of this repository; per the spec its `make(fit)` operation fails
with `EncodingCapacityExceeded` exactly when `fit=false` and the payload
exceeds the fixed version/correction capacity, given here as an abstract
capacity function. -/
def collabMake (capacity : Option Int → Int → Nat) (st : QRCodeState) :
    Except QErr QRCodeState :=
  if st.fit = false ∧ capacity st.version st.error_correction < st.data.length then
    .error .encodingCapacityExceeded
  else
    .ok st

/-- The validation pipeline composed with the spec-modelled collaborator
`make`: what a full call of `generate_qrcode` produces under a given
capacity function. -/
def generate_and_make (capacity : Option Int → Int → Nat)
    (data : String) (error_correction : ErrorCorrectionT)
    (box_size border : Int) (version : Option Int) :
    Except QErr QRCodeState :=
  match (generate_qrcode data error_correction box_size border version).2 with
  | .error e => .error e
  | .ok st => collabMake capacity st

/-- Source `get_error_correction_constant(desired_error_p)`: range check
then threshold chain; the over-30 stderr warning does not change the
returned value. -/
def get_error_correction_constant (desired_error_p : Int) :
    Except QErr ErrorCorrectionEnum :=
  if desired_error_p < 0 ∨ desired_error_p > 100 then
    .error (.invalidErrorPercent desired_error_p)
  else if desired_error_p ≤ 7 then
    .ok .ERROR_CORRECT_L
  else if desired_error_p ≤ 15 then
    .ok .ERROR_CORRECT_M
  else if desired_error_p ≤ 25 then
    .ok .ERROR_CORRECT_Q
  else
    .ok .ERROR_CORRECT_H

/-- The image factory classes the source dispatches over (imported from
the rendering collaborator): `SvgImage`, `SvgPathFillImage`,
`SvgFillImage`, `PymagingImage`. -/
inductive ImageFactory where
  | SvgImage
  | SvgPathFillImage
  | SvgFillImage
  | PymagingImage
deriving DecidableEq, Repr

/-- Source `get_image_factory(factory_type)`: dictionary lookup mapping
the user string to a factory class, `None` for any other string. -/
def get_image_factory (factory_type : String) : Option ImageFactory :=
  if factory_type = "svg" then some .SvgImage
  else if factory_type = "svgpath" then some .SvgPathFillImage
  else if factory_type = "svgfill" then some .SvgFillImage
  else if factory_type = "png" then some .PymagingImage
  else if factory_type = "pymaging" then some .PymagingImage
  else none

/-- A stderr advisory surfaced by `get_image`.  `colorsIgnored` records
the colors and factory name interpolated into the warning; source line
208 prints the resolved factory (which is `None` in that branch) rather
than the user string, so `unknownFactory` carries no name. -/
inductive Advisory where
  | colorsIgnored (fill_color back_color : Option String) (factory_type : String)
  | unknownFactory
deriving DecidableEq, Repr

/-- The `make_image` call `get_image` issues on the rendering
collaborator: either with a named factory and no colors, or the default
colorable path with the fill/back colors. -/
inductive MakeImageCall where
  | withFactory (factory : ImageFactory)
  | withColors (fill_color back_color : Option String)
deriving DecidableEq, Repr

/-- Source `get_image(qrcode, factory_type, fill_color, back_color)`:
returns the advisories printed to stderr together with the `make_image`
call performed.  `if factory_type:` uses Python truthiness, so `None`
and the empty string both skip straight to the default path. -/
def get_image (factory_type : Option String)
    (fill_color back_color : Option String) :
    List Advisory × MakeImageCall :=
  match factory_type with
  | some ft =>
    if ft ≠ "" then
      match get_image_factory ft with
      | some factory =>
        ([Advisory.colorsIgnored fill_color back_color ft],
         .withFactory factory)
      | none =>
        ([Advisory.unknownFactory], .withColors fill_color back_color)
    else
      ([], .withColors fill_color back_color)
  | none => ([], .withColors fill_color back_color)

/-- The outcome of the rendering collaborator `img.save(filename)` call,
which `write_image` wraps: success, or one of the exception classes the
source catches. -/
inductive SaveOutcome where
  | success
  | attributeError (msg : String)
  | valueError (msg : String)
  | osError (msg : String)
deriving DecidableEq, Repr

/-- Console output emitted by `write_image`: the success confirmation,
the stderr diagnostic, and `traceback.print_exc()`. -/
inductive WriteOutput where
  | confirmation (msg : String)
  | diagnostic (msg : String)
  | tracebackPrinted
deriving DecidableEq, Repr

/-- The exception `write_image` lets escape: the original
`AttributeError`/`ValueError` re-raised unchanged, or the fresh
`OSError` raised in the `except OSError` branch. -/
inductive WriteErr where
  | attributeError (msg : String)
  | valueError (msg : String)
  | osError (msg : String)
deriving DecidableEq, Repr

/-- Source `write_image(img, filename)`, with the collaborator save call
abstracted as its outcome: on success print the confirmation; on
`AttributeError`/`ValueError` print the diagnostic and the traceback and
re-raise the same error; on `OSError` raise a new `OSError` whose
message names the target filename. -/
def write_image (save : SaveOutcome) (filename : String) :
    List WriteOutput × Except WriteErr Unit :=
  match save with
  | .success =>
    ([WriteOutput.confirmation
        ("Successfully wrote QR code to file: " ++ filename)], .ok ())
  | .attributeError m =>
    ([WriteOutput.diagnostic
        ("ERROR: Could not write out file " ++ filename ++
         " due to error in generating the image."),
      WriteOutput.tracebackPrinted],
     .error (.attributeError m))
  | .valueError m =>
    ([WriteOutput.diagnostic
        ("ERROR: Could not write out file " ++ filename ++
         " due to error in generating the image."),
      WriteOutput.tracebackPrinted],
     .error (.valueError m))
  | .osError _ =>
    ([], .error (.osError ("ERROR: Could not write out file " ++ filename)))

/-- Helper predicate for stating theorems: the inputs on which the
version check of `generate_qrcode` does not raise (mirrors the code:
`None` and `0` skip it, otherwise membership in `range(1, 40)`). -/
def versionPasses : Option Int → Bool
  | none => true
  | some v => v == 0 || (decide (1 ≤ v) && decide (v < 40))

/-- C1: code-bug evidence.  The claim (matching the docstring of
`generate_qrcode` and the text of the raised message) says every version
in [1, 40] is accepted unchanged, but the assertion at line 79 tests
membership in `range(1, VERSION_MAXIMUM)` which excludes 40, so
version 40 is rejected with a message that itself says the range reaches
40; version 39 is accepted and used unchanged. -/
theorem version40_rejected_despite_documented_range :
    generate_qrcode "HELLO" (.enum .ERROR_CORRECT_Q) 10 5 (some 40) =
      ([], .error (.invalidVersion 40)) ∧
    (generate_qrcode "HELLO" (.enum .ERROR_CORRECT_Q) 10 5 (some 39)).2 =
      .ok ⟨some 39, 3, 10, 5, "HELLO", false⟩ ∧
    QErr.versionMessage 40 = "Invalid version 40 - must be in range 1 -> 40" := by
  refine ⟨rfl, rfl, rfl⟩

/-- C2: code-bug evidence.  The claim says version=0 raises the version
`ValueError`, but `if version:` is false for 0, so validation is skipped
and 0 flows on as the configured version with fit=False; version=41 is
rejected as claimed and version=None passes through with fit=True. -/
theorem version0_skips_validation :
    (generate_qrcode "HELLO" (.enum .ERROR_CORRECT_Q) 10 5 (some 0)).2 =
      .ok ⟨some 0, 3, 10, 5, "HELLO", false⟩ ∧
    generate_qrcode "HELLO" (.enum .ERROR_CORRECT_Q) 10 5 (some 41) =
      ([], .error (.invalidVersion 41)) ∧
    (generate_qrcode "HELLO" (.enum .ERROR_CORRECT_Q) 10 5 none).2 =
      .ok ⟨none, 3, 10, 5, "HELLO", true⟩ := by
  refine ⟨rfl, rfl, rfl⟩

/-- C9 counterexample: the claim says L < M under the ordering of the
enumerated type, but the `IntEnum` values are M=0 and L=1, so M < L. -/
theorem enum_order_refutes_L_lt_M :
    ErrorCorrectionEnum.lt .ERROR_CORRECT_L .ERROR_CORRECT_M = false ∧
    ErrorCorrectionEnum.lt .ERROR_CORRECT_M .ERROR_CORRECT_L = true := by
  decide

/-- C9 amended: the error-correction type is a closed four-case
enumeration whose ordering is that of the collaborator integer codes
M=0 < L=1 < H=2 < Q=3, which does not coincide with increasing
redundancy (that would be L < M < Q < H). -/
theorem enum_order_is_collaborator_codes :
    (∀ e : ErrorCorrectionEnum,
      e = .ERROR_CORRECT_M ∨ e = .ERROR_CORRECT_L ∨
      e = .ERROR_CORRECT_H ∨ e = .ERROR_CORRECT_Q) ∧
    ErrorCorrectionEnum.lt .ERROR_CORRECT_M .ERROR_CORRECT_L = true ∧
    ErrorCorrectionEnum.lt .ERROR_CORRECT_L .ERROR_CORRECT_H = true ∧
    ErrorCorrectionEnum.lt .ERROR_CORRECT_H .ERROR_CORRECT_Q = true ∧
    ErrorCorrectionEnum.toInt .ERROR_CORRECT_M = 0 ∧
    ErrorCorrectionEnum.toInt .ERROR_CORRECT_L = 1 ∧
    ErrorCorrectionEnum.toInt .ERROR_CORRECT_H = 2 ∧
    ErrorCorrectionEnum.toInt .ERROR_CORRECT_Q = 3 := by
  refine ⟨fun e => ?_, by decide, by decide, by decide,
    by decide, by decide, by decide, by decide⟩
  cases e
  exacts [Or.inl rfl, Or.inr (Or.inl rfl),
    Or.inr (Or.inr (Or.inl rfl)), Or.inr (Or.inr (Or.inr rfl))]

/-- C4: for every data, error correction, box size and version, a border
below 4 is rejected with the border `ValueError` and the collaborator
trace is empty: no encoder is constructed, no data added, no encode
attempted. -/
theorem border_below_minimum_rejected_before_encoding :
    ∀ (data : String) (ec : ErrorCorrectionT) (box_size : Int)
      (version : Option Int) (border : Int), border < 4 →
      generate_qrcode data ec box_size border version =
        ([], .error (.invalidBorder border)) := by
  intro data ec box_size version border h
  simp [generate_qrcode, BORDER_PX_MINIMUM, h]

/-- Witness for C4 at border=3. -/
theorem border_below_minimum_witness :
    (3 : Int) < 4 ∧
    generate_qrcode "HELLO" (.enum .ERROR_CORRECT_L) 10 3 none =
      ([], .error (.invalidBorder 3)) :=
  ⟨by decide,
   border_below_minimum_rejected_before_encoding "HELLO"
     (.enum .ERROR_CORRECT_L) 10 none 3 (by decide)⟩

/-- C3: for every integer percentage the resolver returns L on [0,7],
M on (7,15], Q on (15,25], H on (25,100], and raises the range
`ValueError` exactly when the percentage is below 0 or above 100 (so
values in (30,100] still return H without an error). -/
theorem get_error_correction_constant_spec :
    ∀ p : Int,
      (0 ≤ p → p ≤ 7 →
        get_error_correction_constant p = .ok .ERROR_CORRECT_L) ∧
      (7 < p → p ≤ 15 →
        get_error_correction_constant p = .ok .ERROR_CORRECT_M) ∧
      (15 < p → p ≤ 25 →
        get_error_correction_constant p = .ok .ERROR_CORRECT_Q) ∧
      (25 < p → p ≤ 100 →
        get_error_correction_constant p = .ok .ERROR_CORRECT_H) ∧
      (get_error_correction_constant p = .error (.invalidErrorPercent p) ↔
        (p < 0 ∨ 100 < p)) := by
  intro p
  unfold get_error_correction_constant
  split_ifs with h1 h2 h3 h4 <;>
    refine ⟨?_, ?_, ?_, ?_, ?_⟩ <;>
    simp_all <;> omega

/-- Witness for C3 at percentage 20 (and, above 30, at 50). -/
theorem get_error_correction_constant_spec_witness :
    (15 : Int) < 20 ∧ (20 : Int) ≤ 25 ∧
    get_error_correction_constant 20 = .ok .ERROR_CORRECT_Q ∧
    get_error_correction_constant 50 = .ok .ERROR_CORRECT_H :=
  ⟨by decide, by decide,
   (get_error_correction_constant_spec 20).2.2.1 (by decide) (by decide),
   (get_error_correction_constant_spec 50).2.2.2.1 (by decide) (by decide)⟩

/-- C6: whenever the factory name resolves to a known backend,
`get_image` renders through that backend with the colors dropped and
surfaces the colors-ignored advisory, and the resulting `make_image`
call is identical for every choice of fill and back colors. -/
theorem known_factory_ignores_colors :
    ∀ (ft : String) (factory : ImageFactory)
      (fill back fill2 back2 : Option String),
      get_image_factory ft = some factory →
      get_image (some ft) fill back =
        ([Advisory.colorsIgnored fill back ft], .withFactory factory) ∧
      (get_image (some ft) fill back).2 =
        (get_image (some ft) fill2 back2).2 := by
  intro ft factory fill back fill2 back2 hf
  have hne : ft ≠ "" := by
    intro h
    rw [h] at hf
    have hnone : get_image_factory "" = none := by decide
    rw [hnone] at hf
    exact Option.noConfusion hf
  constructor
  · simp [get_image, hne, hf]
  · simp [get_image, hne, hf]

/-- Witness for C6 at factory "svg" with colors red/blue versus none. -/
theorem known_factory_ignores_colors_witness :
    get_image_factory "svg" = some .SvgImage ∧
    get_image (some "svg") (some "red") (some "blue") =
      ([Advisory.colorsIgnored (some "red") (some "blue") "svg"],
       .withFactory .SvgImage) ∧
    (get_image (some "svg") (some "red") (some "blue")).2 =
      (get_image (some "svg") none none).2 := by
  have h := known_factory_ignores_colors "svg" .SvgImage
    (some "red") (some "blue") none none (by decide)
  exact ⟨by decide, h.1, h.2⟩

/-- C7 counterexample: the empty string resolves to no known backend,
yet `get_image` surfaces no advisory for it (Python truthiness treats
the empty string like an absent factory), refuting the claim that every
unknown name surfaces a falling-back advisory. -/
theorem empty_factory_name_no_advisory :
    get_image_factory "" = none ∧
    get_image (some "") (some "black") (some "white")
      = ([], .withColors (some "black") (some "white")) := by
  exact ⟨by decide, rfl⟩

/-- C7 amended: renderer selection always produces a `make_image` call;
when the factory name is absent or resolves to no known backend the
default colorable path is taken with the fill/back colors applied; a
non-empty unknown name additionally surfaces the fallback advisory,
while the empty string silently takes the default path. -/
theorem get_image_default_path_spec :
    ∀ (ftO : Option String) (fill back : Option String),
      (∃ a c, get_image ftO fill back = (a, c)) ∧
      (ftO = none → get_image ftO fill back = ([], .withColors fill back)) ∧
      (∀ ft, ftO = some ft → get_image_factory ft = none →
        (get_image ftO fill back).2 = .withColors fill back ∧
        (ft ≠ "" →
          (get_image ftO fill back).1 = [Advisory.unknownFactory]) ∧
        (ft = "" → (get_image ftO fill back).1 = [])) := by
  intro ftO fill back
  refine ⟨⟨_, _, rfl⟩, ?_, ?_⟩
  · intro h
    subst h
    rfl
  · intro ft h hf
    subst h
    by_cases he : ft = ""
    · subst he
      exact ⟨rfl, fun hne => absurd rfl hne, fun _ => rfl⟩
    · refine ⟨?_, fun _ => ?_, fun h2 => absurd h2 he⟩
      · simp [get_image, he, hf]
      · simp [get_image, he, hf]

/-- Witness for C7 (amended) at the unknown name "bmp" and at `none`. -/
theorem get_image_default_path_witness :
    (get_image (some "bmp") (some "black") (some "white")).2 =
      .withColors (some "black") (some "white") ∧
    (get_image (some "bmp") (some "black") (some "white")).1 =
      [Advisory.unknownFactory] ∧
    get_image none (some "black") (some "white") =
      ([], .withColors (some "black") (some "white")) := by
  have h := (get_image_default_path_spec (some "bmp") (some "black")
    (some "white")).2.2 "bmp" rfl (by decide)
  have h0 := (get_image_default_path_spec none (some "black")
    (some "white")).2.1 rfl
  exact ⟨h.1, h.2.1 (by decide), h0⟩

/-- Helper: whenever `versionPasses` holds, the version block of
`generate_qrcode` raises nothing. -/
lemma checkVersion_ok_of_versionPasses :
    ∀ version, versionPasses version = true → checkVersion version = .ok () := by
  intro version h
  rcases version with _ | v
  · rfl
  · simp [versionPasses] at h
    simp only [checkVersion, VERSION_MAXIMUM]
    split_ifs with a b
    · rfl
    · rfl
    · omega

/-- C5: a successful `generate_qrcode` call issues `make` with fit=True
if and only if version is None; and under the spec-modelled collaborator
`make`, any fixed (non-None) version whose capacity is below the payload
length fails with `EncodingCapacityExceeded` instead of refitting. -/
theorem fit_iff_version_none :
    ∀ (data : String) (ec : ErrorCorrectionT) (box border : Int)
      (version : Option Int) (tr : List CollabEvent) (st : QRCodeState),
      generate_qrcode data ec box border version = (tr, .ok st) →
      (st.fit = true ↔ version = none) ∧
      CollabEvent.make st.fit ∈ tr ∧
      ∀ capacity : Option Int → Int → Nat, version ≠ none →
        capacity st.version st.error_correction < st.data.length →
        generate_and_make capacity data ec box border version =
          .error .encodingCapacityExceeded := by
  intro data ec box border version tr st h
  have h0 := h
  unfold generate_qrcode at h
  split at h
  · simp at h
  · split at h
    · simp at h
    · split at h
      · simp at h
      · rw [Prod.mk.injEq] at h
        obtain ⟨htr, hst⟩ := h
        injection hst with hst
        subst hst
        subst htr
        refine ⟨by simp, by simp, ?_⟩
        intro capacity hv hcap
        rcases version with _ | v
        · exact absurd rfl hv
        · simp only [generate_and_make, h0]
          simp [collabMake, hcap]

/-- Witness for C5 at version 1 with a capacity function returning 0. -/
theorem fit_iff_version_none_witness :
    ((⟨some 1, 2, 10, 5, "HELLO", false⟩ : QRCodeState).fit = true ↔
      (some 1 : Option Int) = none) ∧
    generate_and_make (fun _ _ => 0) "HELLO" (.enum .ERROR_CORRECT_H)
      10 5 (some 1) = .error .encodingCapacityExceeded := by
  have h := fit_iff_version_none "HELLO" (.enum .ERROR_CORRECT_H) 10 5
    (some 1)
    [CollabEvent.newQRCode (some 1) 2 10 5, CollabEvent.addData "HELLO",
     CollabEvent.make false]
    ⟨some 1, 2, 10, 5, "HELLO", false⟩ rfl
  exact ⟨h.1, h.2.2 (fun _ _ => 0) (by simp) (by decide)⟩

/-- C8: `write_image` classifies outcomes of the collaborator save call
as specified: success prints the confirmation naming the file;
AttributeError/ValueError print the diagnostic plus the traceback and
re-raise the same error; OSError is re-raised as an OSError whose
message names the target filename. -/
theorem write_image_spec :
    ∀ (filename : String) (save : SaveOutcome),
      (save = .success →
        write_image save filename =
          ([WriteOutput.confirmation
             ("Successfully wrote QR code to file: " ++ filename)],
           .ok ()) ∧
        ∃ pre, "Successfully wrote QR code to file: " ++ filename =
          pre ++ filename) ∧
      (∀ m, save = .attributeError m →
        write_image save filename =
          ([WriteOutput.diagnostic
             ("ERROR: Could not write out file " ++ filename ++
              " due to error in generating the image."),
            WriteOutput.tracebackPrinted],
           .error (.attributeError m))) ∧
      (∀ m, save = .valueError m →
        write_image save filename =
          ([WriteOutput.diagnostic
             ("ERROR: Could not write out file " ++ filename ++
              " due to error in generating the image."),
            WriteOutput.tracebackPrinted],
           .error (.valueError m))) ∧
      (∀ m, save = .osError m →
        write_image save filename =
          ([], .error (.osError
            ("ERROR: Could not write out file " ++ filename))) ∧
        ∃ pre, "ERROR: Could not write out file " ++ filename =
          pre ++ filename) := by
  intro filename save
  refine ⟨?_, ?_, ?_, ?_⟩
  · intro h
    subst h
    exact ⟨rfl, ⟨_, rfl⟩⟩
  · intro m h
    subst h
    rfl
  · intro m h
    subst h
    rfl
  · intro m h
    subst h
    exact ⟨rfl, ⟨_, rfl⟩⟩

/-- Witness for C8 at filename "out.png": the success confirmation and
the wrapped OSError. -/
theorem write_image_spec_witness :
    write_image .success "out.png" =
      ([WriteOutput.confirmation
         ("Successfully wrote QR code to file: " ++ "out.png")], .ok ()) ∧
    write_image (.osError "disk full") "out.png" =
      ([], .error (.osError
        ("ERROR: Could not write out file " ++ "out.png"))) := by
  have h1 := (write_image_spec "out.png" .success).1 rfl
  have h2 := (write_image_spec "out.png" (.osError "disk full")).2.2.2
    "disk full" rfl
  exact ⟨h1.1, h2.1⟩

/-- C10: a plain integer error_correction is coerced through the enum:
each value in {0,1,2,3} proceeds with the member holding that value, and
any other integer is rejected with the coercion ValueError before any
collaborator interaction (empty trace). -/
theorem int_error_correction_coercion_spec :
    ∀ (n : Int) (data : String) (box border : Int) (version : Option Int),
      BORDER_PX_MINIMUM ≤ border → versionPasses version = true →
      ((0 ≤ n ∧ n ≤ 3) →
        ∃ e : ErrorCorrectionEnum, ErrorCorrectionEnum.ofInt n = some e ∧
          ErrorCorrectionEnum.toInt e = n ∧
          generate_qrcode data (.int n) box border version =
            ([CollabEvent.newQRCode version n box border,
              CollabEvent.addData data,
              CollabEvent.make version.isNone],
             .ok ⟨version, n, box, border, data, version.isNone⟩)) ∧
      (¬ (0 ≤ n ∧ n ≤ 3) →
        generate_qrcode data (.int n) box border version =
          ([], .error (.invalidErrorCorrection n))) := by
  intro n data box border version hb hv
  have hcv := checkVersion_ok_of_versionPasses version hv
  have hbne := not_lt.mpr hb
  constructor
  · rintro ⟨h0, h3⟩
    interval_cases n <;>
      refine ⟨_, rfl, rfl, ?_⟩ <;>
      simp [generate_qrcode, hbne, hcv, coerceErrorCorrection,
        ErrorCorrectionEnum.ofInt, ErrorCorrectionEnum.toInt]
  · intro hn
    have hofn : ErrorCorrectionEnum.ofInt n = none := by
      unfold ErrorCorrectionEnum.ofInt
      split_ifs with a b c d
      · exact absurd ⟨by omega, by omega⟩ hn
      · exact absurd ⟨by omega, by omega⟩ hn
      · exact absurd ⟨by omega, by omega⟩ hn
      · exact absurd ⟨by omega, by omega⟩ hn
      · rfl
    simp [generate_qrcode, hbne, hcv, coerceErrorCorrection, hofn]

/-- Witness for C10 at n=2 (coerced to ERROR_CORRECT_H) and n=7
(rejected). -/
theorem int_error_correction_coercion_witness :
    (generate_qrcode "HI" (.int 2) 10 5 none).2 =
      .ok ⟨none, 2, 10, 5, "HI", true⟩ ∧
    generate_qrcode "HI" (.int 7) 10 5 none =
      ([], .error (.invalidErrorCorrection 7)) := by
  have h2 := (int_error_correction_coercion_spec 2 "HI" 10 5 none
    (by decide) (by decide)).1 (by decide)
  have h7 := (int_error_correction_coercion_spec 7 "HI" 10 5 none
    (by decide) (by decide)).2 (by decide)
  obtain ⟨e, he, het, heq⟩ := h2
  refine ⟨?_, h7⟩
  rw [heq]
  rfl

end QrGen
